import Mathlib

/-
Verification development for the CrownDataWriter repository.

The repository is a small data-logging utility: `app.py` buffers incoming
sample dicts in memory (`NeurosityApp.buffer_data`), flushes them to a sqlite
table `brainwaves_raw` (`NeurosityApp.flush_buffer`), and stamps a capture
time on each sample if the source omitted one (`NeurosityApp.brainwave_callback`).
`setup_database.py` creates the schema; `data_viewer.py` is the read side
(recent-record summary, time-range query, hourly aggregation, CSV export).

This file is a shallow embedding of that code.  Python dicts become
association lists with unique keys, sqlite rows become structures, the sqlite
connection keeps an explicit pending (uncommitted) statement list because the
error path of `flush_buffer` never rolls the open transaction back, and the
Python standard-library pair `json.dumps` / `json.loads` is modelled
abstractly by a `JsonText` type that records whether the column text is the
serialization of a JSON value or malformed text (dumps is injective and loads
inverts it, which is the only contract the repository relies on).
-/

/-- A JSON value, the shape of the sample payloads handled by the app.
Numbers are modelled as integers; nothing in the repository computes with
payload numbers, they are carried opaquely. -/
inductive Json where
  | null
  | bool (b : Bool)
  | num (n : Int)
  | str (s : String)
  | arr (xs : List Json)
  | obj (fields : List (String × Json))

/-- A Python dict with JSON values, as delivered to `brainwave_callback`:
an association list with unique keys in insertion order. -/
abbrev Dict := List (String × Json)

/-- Python truthiness of a JSON value (`not x` in `brainwave_callback` tests
this): None, False, 0, empty string, empty list and empty dict are falsy. -/
def Json.truthy : Json → Bool
  | .null => false
  | .bool b => b
  | .num n => n != 0
  | .str s => s != ""
  | .arr xs => !xs.isEmpty
  | .obj fs => !fs.isEmpty

/-- Python `d.get(k)`: the value under key `k`, if present. -/
def dictGet (d : Dict) (k : String) : Option Json :=
  match d with
  | [] => none
  | (k2, v) :: rest => if k2 = k then some v else dictGet rest k

/-- Python `d.get(k, dflt)`. -/
def dictGetD (d : Dict) (k : String) (dflt : Json) : Json :=
  (dictGet d k).getD dflt

/-- Python `d[k] = v`: replaces the value in place when the key exists
(keeping its position, as Python dicts keep insertion order), otherwise
appends the new key at the end. -/
def dictSet (d : Dict) (k : String) (v : Json) : Dict :=
  match d with
  | [] => [(k, v)]
  | (k2, w) :: rest => if k2 = k then (k2, v) :: rest else (k2, w) :: dictSet rest k v

/-- The TEXT content of the `data` column.  `wellFormed j` stands for the
`json.dumps` serialization of `j`; `malformed s` stands for column text that
is not valid JSON.  This abstracts the stdlib serializer by exactly the
contract the code uses: dumps is injective and loads inverts it. -/
inductive JsonText where
  | wellFormed (j : Json)
  | malformed (s : String)

/-- `json.dumps`. -/
def dumps (j : Json) : JsonText := .wellFormed j

/-- `json.loads`: raises `json.JSONDecodeError` on malformed text. -/
def loads : JsonText → Except String Json
  | .wellFormed j => .ok j
  | .malformed _ => .error "json.JSONDecodeError"

/-- A row of `brainwaves_raw` as the writer binds it.  `id` is assigned by
sqlite AUTOINCREMENT in insertion order; `timestamp` holds whatever Python
value `flush_buffer` bound (a string on the normal path, but the column is
dynamically typed). -/
structure StoredRow where
  id : Nat
  timestamp : Json
  data : JsonText
  user_name : String

/-- The sqlite connection as `app.py` drives it.  Python sqlite3 opens an
implicit transaction at the first INSERT; rows from executed INSERT
statements stay `pending` until `conn.commit()`, and the `except` branch of
`flush_buffer` never rolls back, so pending rows survive a failed flush. -/
structure Conn where
  committed : List StoredRow
  pending : List StoredRow
  nextId : Nat

/-- `conn.commit()`: makes every pending row durable. -/
def Conn.commit (c : Conn) : Conn :=
  { committed := c.committed ++ c.pending, pending := [], nextId := c.nextId }

/-- The state of `NeurosityApp` relevant to buffering and persistence:
the in-memory buffer of raw dicts, the configured `BUFFER_SIZE`, the operator
name, and the sqlite connection.  `flushCalls` is a ghost counter of
size-triggered `flush_buffer` invocations from `buffer_data`; it records an
event and does not influence any behavior. -/
structure AppState where
  buffer : List Dict
  buffer_size : Nat
  user_name : String
  conn : Conn
  flushCalls : Nat

/-- One `cursor.execute("INSERT INTO brainwaves_raw ...")` from the loop in
`flush_buffer`: binds `item.get('timestamp', datetime.now().isoformat())`,
`json.dumps(item)` and `self.user_name`; the row joins the open
transaction. -/
def execInsert (now : String) (user : String) (c : Conn) (item : Dict) : Conn :=
  { c with
    pending := c.pending ++
      [{ id := c.nextId
         timestamp := dictGetD item "timestamp" (.str now)
         data := dumps (.obj item)
         user_name := user }]
    nextId := c.nextId + 1 }

/-- The insert loop of `flush_buffer` over a list of buffered items. -/
def execInserts (now : String) (user : String) (c : Conn) (items : List Dict) : Conn :=
  items.foldl (execInsert now user) c

/-- The rows the insert loop produces for `items`, ids starting at
`startId`. -/
def rowsFrom (now : String) (user : String) (startId : Nat) : List Dict → List StoredRow
  | [] => []
  | item :: rest =>
    { id := startId
      timestamp := dictGetD item "timestamp" (.str now)
      data := dumps (.obj item)
      user_name := user } :: rowsFrom now user (startId + 1) rest

/-- `NeurosityApp.flush_buffer`, with the point of a persistence failure made
explicit.  `failAt = none` is the success path: every buffered item is
inserted, the transaction commits, the buffer is cleared.  `failAt = some k`
with `k <` buffer length means the INSERT of item `k` raises (items before it
were already executed); `k ≥` buffer length means every INSERT succeeded and
`conn.commit()` raised.  The `except` branch only logs: the buffer is kept,
and nothing is rolled back, so already-executed inserts stay pending on the
connection. -/
def flush_buffer (now : String) (failAt : Option Nat) (s : AppState) : AppState :=
  if s.buffer.isEmpty then s
  else
    match failAt with
    | some k =>
      if k < s.buffer.length then
        { s with conn := execInserts now s.user_name s.conn (s.buffer.take k) }
      else
        { s with conn := execInserts now s.user_name s.conn s.buffer }
    | none =>
      { s with
        conn := (execInserts now s.user_name s.conn s.buffer).commit
        buffer := [] }

/-- `NeurosityApp.buffer_data`: append the item to the buffer; if the buffer
length reached `buffer_size`, flush synchronously before returning.  The
ghost counter `flushCalls` records the size-triggered flush invocation. -/
def buffer_data (now : String) (failAt : Option Nat) (s : AppState) (item : Dict) : AppState :=
  let s1 := { s with buffer := s.buffer ++ [item] }
  if s1.buffer.length ≥ s1.buffer_size then
    flush_buffer now failAt { s1 with flushCalls := s1.flushCalls + 1 }
  else s1

/-- The timestamp-stamping step of `NeurosityApp.brainwave_callback`:
`if not data.get('timestamp'): data['timestamp'] = datetime.now().isoformat()`.
The guard is Python truthiness, so it stamps both when the field is absent
and when its value is falsy (None, empty string, 0, ...). -/
def brainwave_callback_stamp (now : String) (data : Dict) : Dict :=
  match dictGet data "timestamp" with
  | none => dictSet data "timestamp" (.str now)
  | some v => if v.truthy then data else dictSet data "timestamp" (.str now)

/-- `NeurosityApp.brainwave_callback`: stamp, then `buffer_data`. -/
def brainwave_callback (now : String) (failAt : Option Nat) (s : AppState) (raw : Dict) :
    AppState :=
  buffer_data now failAt s (brainwave_callback_stamp now raw)

/-- A sequence of ingests through `buffer_data` with every triggered flush
succeeding (`failAt = none`). -/
def ingestList (now : String) (s : AppState) (items : List Dict) : AppState :=
  items.foldl (buffer_data now none) s

/-- A sequence of ingests through `buffer_data` where every triggered flush
fails at the call boundary (`failAt = some 0`). -/
def ingestListFail (now : String) (s : AppState) (items : List Dict) : AppState :=
  items.foldl (buffer_data now (some 0)) s

/-- Schema-level state of the sqlite file: which user tables and indexes
exist, plus the rows of `brainwaves_raw` (kept to state that
re-initialization loses no data). -/
structure DbSchema where
  tables : List String
  indexes : List String
  rows : List StoredRow

/-- `CREATE TABLE IF NOT EXISTS name (...)`: adds the table only when
absent; existing tables and their data are untouched. -/
def createTableIfNotExists (name : String) (db : DbSchema) : DbSchema :=
  if name ∈ db.tables then db else { db with tables := db.tables ++ [name] }

/-- `CREATE INDEX IF NOT EXISTS name ...`: adds the index only when
absent. -/
def createIndexIfNotExists (name : String) (db : DbSchema) : DbSchema :=
  if name ∈ db.indexes then db else { db with indexes := db.indexes ++ [name] }

/-- `NeurosityApp.init_database` (app.py): creates `brainwaves_raw` and its
`idx_timestamp` index if absent.  It does not create `aggregated_data`. -/
def init_database (db : DbSchema) : DbSchema :=
  createIndexIfNotExists "idx_timestamp" (createTableIfNotExists "brainwaves_raw" db)

/-- `setup_database` (setup_database.py): creates `brainwaves_raw`, its
`idx_timestamp` index, and the `aggregated_data` table, each if absent. -/
def setup_database (db : DbSchema) : DbSchema :=
  createTableIfNotExists "aggregated_data"
    (createIndexIfNotExists "idx_timestamp" (createTableIfNotExists "brainwaves_raw" db))

/-- A `brainwaves_raw` row as the viewer reads it.  The viewer compares and
sorts the `timestamp` column as TEXT (its declared type), so this read-side
model covers stores whose timestamp column holds text. -/
structure DVRow where
  id : Nat
  timestamp : String
  data : JsonText
  user_name : String

/-- Lexicographic comparison of character lists: the order sqlite's default
BINARY collation gives TEXT values (memcmp of the UTF-8 bytes, which agrees
with code-point order). -/
def charsLe : List Char → List Char → Bool
  | [], _ => true
  | _ :: _, [] => false
  | a :: as, b :: bs => if a < b then true else if a = b then charsLe as bs else false

/-- TEXT comparison used by `BETWEEN` and `ORDER BY` on the timestamp
column. -/
def strLe (a b : String) : Bool := charsLe a.data b.data

/-- `ORDER BY timestamp` (ascending) as a relation on rows. -/
def tsAsc (a b : DVRow) : Prop := strLe a.timestamp b.timestamp = true

/-- `ORDER BY timestamp DESC` as a relation on rows. -/
def tsDesc (a b : DVRow) : Prop := strLe b.timestamp a.timestamp = true

instance : DecidableRel tsAsc := fun _ _ => inferInstanceAs (Decidable (_ = _))

instance : DecidableRel tsDesc := fun _ _ => inferInstanceAs (Decidable (_ = _))

/-- The `WHERE timestamp BETWEEN ? AND ?` predicate (inclusive on both
ends). -/
def inRange (startT endT : String) (r : DVRow) : Bool :=
  strLe startT r.timestamp && strLe r.timestamp endT

/-- Row selection of `get_data_by_timerange`:
`WHERE timestamp BETWEEN ? AND ? ORDER BY timestamp`. -/
def timerangeSelect (rows : List DVRow) (startT endT : String) : List DVRow :=
  List.insertionSort tsAsc (rows.filter (inRange startT endT))

/-- `NeurosityDataViewer.get_data_by_timerange`: the range query, returning
the selected `timestamp, data` columns. -/
def get_data_by_timerange (rows : List DVRow) (startT endT : String) :
    List (String × JsonText) :=
  (timerangeSelect rows startT endT).map (fun r => (r.timestamp, r.data))

/-- Row selection shared by `get_recent_data` and the limited branch of
`export_to_csv`: `ORDER BY timestamp DESC LIMIT ?`. -/
def recentSelect (rows : List DVRow) (limit : Nat) : List DVRow :=
  (List.insertionSort tsDesc rows).take limit

/-- Python `j.get(k, dflt)` on a decoded JSON value: dict lookup with a
default; raises AttributeError when the decoded value is not a dict. -/
def pyGetD (j : Json) (k : String) (dflt : Json) : Except String Json :=
  match j with
  | .obj fields => .ok (dictGetD fields k dflt)
  | _ => .error "AttributeError"

/-- Python `len(j)`: length of a list, string or dict; raises TypeError
otherwise. -/
def pyLen : Json → Except String Nat
  | .arr xs => .ok xs.length
  | .str s2 => .ok s2.length
  | .obj fs => .ok fs.length
  | _ => .error "TypeError"

/-- The summary record `get_recent_data` builds per row. -/
structure RecentRecord where
  timestamp : String
  user_name : String
  channels : Nat
  deviceId : Json

/-- The per-row body of the `get_recent_data` loop: `json.loads(data_str)`,
then `len(data.get('data', []))` and `data.get('deviceId', 'unknown')`.
Any raised error aborts the whole loop. -/
def recentRecordOfRow (r : DVRow) : Except String RecentRecord :=
  match loads r.data with
  | .error e => .error e
  | .ok d =>
    match pyGetD d "data" (.arr []) with
    | .error e => .error e
    | .ok dv =>
      match pyLen dv with
      | .error e => .error e
      | .ok ch =>
        match pyGetD d "deviceId" (.str "unknown") with
        | .error e => .error e
        | .ok dev =>
          .ok { timestamp := r.timestamp, user_name := r.user_name,
                channels := ch, deviceId := dev }

/-- The record-building loop shared by `get_recent_data` and
`export_to_csv`: first raised error aborts. -/
def mapRows {α : Type} (f : DVRow → Except String α) : List DVRow → Except String (List α)
  | [] => .ok []
  | r :: rest =>
    match f r with
    | .error e => .error e
    | .ok x =>
      match mapRows f rest with
      | .error e => .error e
      | .ok xs => .ok (x :: xs)

/-- `NeurosityDataViewer.get_recent_data`. -/
def get_recent_data (rows : List DVRow) (limit : Nat) : Except String (List RecentRecord) :=
  mapRows recentRecordOfRow (recentSelect rows limit)

/-- sqlite `substr(t, 1, 13)`: the first 13 characters of the text. -/
def substr13 (s : String) : String := ⟨s.data.take 13⟩

/-- The grouping key of the hourly aggregation:
`substr(timestamp, 1, 13)` (the first 13 characters, the `YYYY-MM-DDTHH`
prefix of an ISO timestamp) together with `user_name`. -/
def hourKey (r : DVRow) : String × String := (substr13 r.timestamp, r.user_name)

/-- `ORDER BY hour` on grouping keys. -/
def hourLe (a b : String × String) : Prop := strLe a.1 b.1 = true

instance : DecidableRel hourLe := fun _ _ => inferInstanceAs (Decidable (_ = _))

/-- The aggregation query of `plot_data_volume_by_hour`:
`SELECT substr(timestamp, 1, 13) as hour, COUNT(*), user_name ... WHERE
timestamp BETWEEN ? AND ? GROUP BY hour, user_name ORDER BY hour`.
Output tuples are `(hour, count, user_name)` in the selected column order. -/
def hourlyCounts (rows : List DVRow) (startT endT : String) : List (String × Nat × String) :=
  (List.insertionSort hourLe (((rows.filter (inRange startT endT)).map hourKey).dedup)).map
    (fun k =>
      (k.1,
        ((rows.filter (inRange startT endT)).filter
          (fun r => substr13 r.timestamp == k.1 && r.user_name == k.2)).length,
        k.2))

/-- Row selection of `export_to_csv`.  The branch is Python `if limit:`, so
the LIMIT query runs only for a truthy limit (not None and not 0); a limit
of None or 0 selects every row. -/
def exportSelect (rows : List DVRow) (limit : Option Nat) : List DVRow :=
  match limit with
  | some l => if l ≠ 0 then recentSelect rows l else List.insertionSort tsDesc rows
  | none => List.insertionSort tsDesc rows

/-- The CSV record `export_to_csv` builds per row. -/
structure CsvRecord where
  id : Nat
  timestamp : String
  user_name : String
  deviceId : Json
  data_json : JsonText

/-- The per-row body of the `export_to_csv` loop: `json.loads(data_str)`,
`data.get('deviceId', 'unknown')`, keeping the original serialized payload
in `data_json`. -/
def csvRecordOfRow (r : DVRow) : Except String CsvRecord :=
  match loads r.data with
  | .error e => .error e
  | .ok d =>
    match pyGetD d "deviceId" (.str "unknown") with
    | .error e => .error e
    | .ok dev =>
      .ok { id := r.id, timestamp := r.timestamp, user_name := r.user_name,
            deviceId := dev, data_json := r.data }

/-- `NeurosityDataViewer.export_to_csv` up to the DataFrame write: which
records reach the CSV. -/
def export_to_csv (rows : List DVRow) (limit : Option Nat) : Except String (List CsvRecord) :=
  mapRows csvRecordOfRow (exportSelect rows limit)

/-! ### Ordering lemmas for the TEXT comparison -/

theorem charsLe_refl : ∀ xs : List Char, charsLe xs xs = true
  | [] => rfl
  | x :: xs => by simp [charsLe, lt_irrefl, charsLe_refl xs]

theorem charsLe_total : ∀ xs ys : List Char, charsLe xs ys = true ∨ charsLe ys xs = true
  | [], _ => Or.inl rfl
  | _ :: _, [] => Or.inr rfl
  | x :: xs, y :: ys => by
    rcases lt_trichotomy x y with h | h | h
    · left; simp [charsLe, h]
    · subst h
      rcases charsLe_total xs ys with h2 | h2
      · left; simp [charsLe, h2]
      · right; simp [charsLe, h2]
    · right; simp [charsLe, h]

theorem charsLe_trans : ∀ xs ys zs : List Char,
    charsLe xs ys = true → charsLe ys zs = true → charsLe xs zs = true
  | [], _, _, _, _ => rfl
  | _ :: _, [], _, h1, _ => by simp [charsLe] at h1
  | _ :: _, _ :: _, [], _, h2 => by simp [charsLe] at h2
  | x :: xs, y :: ys, z :: zs, h1, h2 => by
    simp only [charsLe] at h1 h2 ⊢
    rcases lt_trichotomy x y with hxy | hxy | hxy
    · rcases lt_trichotomy y z with hyz | hyz | hyz
      · simp [lt_trans hxy hyz]
      · subst hyz; simp [hxy]
      · rw [if_neg (not_lt.mpr (le_of_lt hyz)), if_neg (ne_of_gt hyz)] at h2
        simp at h2
    · subst hxy
      rw [if_neg (lt_irrefl x), if_pos rfl] at h1
      rcases lt_trichotomy x z with hyz | hyz | hyz
      · simp [hyz]
      · subst hyz
        rw [if_neg (lt_irrefl x), if_pos rfl] at h2
        rw [if_neg (lt_irrefl x), if_pos rfl]
        exact charsLe_trans xs ys zs h1 h2
      · rw [if_neg (not_lt.mpr (le_of_lt hyz)), if_neg (ne_of_gt hyz)] at h2
        simp at h2
    · rw [if_neg (not_lt.mpr (le_of_lt hxy)), if_neg (ne_of_gt hxy)] at h1
      simp at h1

theorem strLe_total (a b : String) : strLe a b = true ∨ strLe b a = true :=
  charsLe_total a.data b.data

theorem strLe_trans {a b c : String} (h1 : strLe a b = true) (h2 : strLe b c = true) :
    strLe a c = true :=
  charsLe_trans a.data b.data c.data h1 h2

theorem tsAsc_total : ∀ a b : DVRow, tsAsc a b ∨ tsAsc b a :=
  fun a b => strLe_total a.timestamp b.timestamp

theorem tsAsc_trans : ∀ a b c : DVRow, tsAsc a b → tsAsc b c → tsAsc a c :=
  fun _ _ _ h1 h2 => strLe_trans h1 h2

theorem tsDesc_total : ∀ a b : DVRow, tsDesc a b ∨ tsDesc b a :=
  fun a b => strLe_total b.timestamp a.timestamp

theorem tsDesc_trans : ∀ a b c : DVRow, tsDesc a b → tsDesc b c → tsDesc a c :=
  fun _ _ _ h1 h2 => strLe_trans h2 h1

theorem hourLe_total : ∀ a b : String × String, hourLe a b ∨ hourLe b a :=
  fun a b => strLe_total a.1 b.1

theorem hourLe_trans : ∀ a b c : String × String, hourLe a b → hourLe b c → hourLe a c :=
  fun _ _ _ h1 h2 => strLe_trans h1 h2

/-! ### Dict and stamping lemmas -/

theorem dictGet_dictSet (k : String) (v : Json) :
    ∀ d : Dict, dictGet (dictSet d k v) k = some v
  | [] => by simp [dictSet, dictGet]
  | (k2, w) :: rest => by
    by_cases h : k2 = k
    · subst h; simp [dictSet, dictGet]
    · simp [dictSet, dictGet, h, dictGet_dictSet k v rest]

theorem stamp_timestamp (now : String) (d : Dict) :
    ∃ v : Json, dictGet (brainwave_callback_stamp now d) "timestamp" = some v := by
  unfold brainwave_callback_stamp
  cases h : dictGet d "timestamp" with
  | none => exact ⟨.str now, dictGet_dictSet _ _ d⟩
  | some v =>
    by_cases hv : v.truthy
    · exact ⟨v, by simp [hv, h]⟩
    · exact ⟨.str now, by simp [hv, dictGet_dictSet _ _ d]⟩

theorem stamp_of_missing (now : String) (d : Dict) (h : dictGet d "timestamp" = none) :
    brainwave_callback_stamp now d = dictSet d "timestamp" (.str now) := by
  unfold brainwave_callback_stamp
  rw [h]

theorem stamp_of_truthy (now : String) (d : Dict) (v : Json)
    (h : dictGet d "timestamp" = some v) (hv : v.truthy = true) :
    brainwave_callback_stamp now d = d := by
  unfold brainwave_callback_stamp
  rw [h]
  simp [hv]

/-! ### Writer state lemmas -/

theorem execInserts_spec (now user : String) :
    ∀ (items : List Dict) (c : Conn),
      execInserts now user c items =
        { committed := c.committed
          pending := c.pending ++ rowsFrom now user c.nextId items
          nextId := c.nextId + items.length }
  | [], c => by simp [execInserts, rowsFrom]
  | item :: rest, c => by
    have step : execInserts now user c (item :: rest)
        = execInserts now user (execInsert now user c item) rest := rfl
    rw [step, execInserts_spec now user rest (execInsert now user c item)]
    simp only [execInsert, rowsFrom, List.length_cons]
    rw [Conn.mk.injEq]
    refine ⟨rfl, by simp [List.append_assoc], by omega⟩

theorem flush_buffer_empty (now : String) (failAt : Option Nat) (s : AppState)
    (h : s.buffer = []) : flush_buffer now failAt s = s := by
  unfold flush_buffer
  simp [h]

theorem flush_buffer_success (now : String) (s : AppState) (h : s.buffer ≠ []) :
    flush_buffer now none s =
      { s with
        conn := { committed := s.conn.committed ++ (s.conn.pending ++
                    rowsFrom now s.user_name s.conn.nextId s.buffer)
                  pending := []
                  nextId := s.conn.nextId + s.buffer.length }
        buffer := [] } := by
  unfold flush_buffer
  rw [if_neg (by simpa [List.isEmpty_iff] using h)]
  rw [execInserts_spec]
  rfl

theorem flush_buffer_none_buffer (now : String) (s : AppState) :
    (flush_buffer now none s).buffer = [] := by
  by_cases h : s.buffer = []
  · rw [flush_buffer_empty now none s h, h]
  · rw [flush_buffer_success now s h]

theorem flush_buffer_fail_boundary (now : String) (s : AppState) :
    flush_buffer now (some 0) s = s := by
  unfold flush_buffer
  by_cases h : s.buffer.isEmpty
  · simp [h]
  · rw [if_neg h]
    have hlen : 0 < s.buffer.length := by
      cases hb : s.buffer with
      | nil => rw [hb] at h; simp at h
      | cons a l => simp [hb]
    simp only [hlen, if_pos, List.take_zero]
    rfl

theorem flush_buffer_fail_buffer (now : String) (k : Nat) (s : AppState) :
    (flush_buffer now (some k) s).buffer = s.buffer := by
  unfold flush_buffer
  by_cases h : s.buffer.isEmpty
  · simp [h]
  · rw [if_neg h]
    by_cases hk : k < s.buffer.length <;> simp [hk]

theorem flush_buffer_fields (now : String) (failAt : Option Nat) (s : AppState) :
    (flush_buffer now failAt s).buffer_size = s.buffer_size ∧
      (flush_buffer now failAt s).user_name = s.user_name ∧
      (flush_buffer now failAt s).flushCalls = s.flushCalls := by
  unfold flush_buffer
  by_cases h : s.buffer.isEmpty
  · simp [h]
  · rw [if_neg h]
    cases failAt with
    | none => exact ⟨rfl, rfl, rfl⟩
    | some k => by_cases hk : k < s.buffer.length <;> simp [hk]

theorem buffer_data_full (now : String) (failAt : Option Nat) (s : AppState) (item : Dict)
    (h : s.buffer.length + 1 ≥ s.buffer_size) :
    buffer_data now failAt s item =
      flush_buffer now failAt
        { s with buffer := s.buffer ++ [item], flushCalls := s.flushCalls + 1 } := by
  unfold buffer_data
  rw [if_pos (by simpa using h)]

theorem buffer_data_not_full (now : String) (failAt : Option Nat) (s : AppState) (item : Dict)
    (h : s.buffer.length + 1 < s.buffer_size) :
    buffer_data now failAt s item = { s with buffer := s.buffer ++ [item] } := by
  unfold buffer_data
  rw [if_neg (by simpa using Nat.not_le.mpr h)]

theorem ingest_count (now : String) :
    ∀ (items : List Dict) (s : AppState),
      s.buffer.length < s.buffer_size →
      (ingestList now s items).buffer.length
          = (s.buffer.length + items.length) % s.buffer_size
        ∧ (ingestList now s items).flushCalls
          = s.flushCalls + (s.buffer.length + items.length) / s.buffer_size
        ∧ (ingestList now s items).buffer_size = s.buffer_size
  | [], s, h => by
    refine ⟨?_, ?_, rfl⟩
    · simp [ingestList, Nat.mod_eq_of_lt h]
    · simp [ingestList, Nat.div_eq_of_lt h]
  | item :: rest, s, h => by
    have step : ingestList now s (item :: rest)
        = ingestList now (buffer_data now none s item) rest := rfl
    by_cases hfull : s.buffer.length + 1 ≥ s.buffer_size
    · have hsz : s.buffer.length + 1 = s.buffer_size :=
        le_antisymm (Nat.succ_le_of_lt h) hfull
      rw [step, buffer_data_full now none s item hfull]
      have hfl := flush_buffer_fields now none
        { s with buffer := s.buffer ++ [item], flushCalls := s.flushCalls + 1 }
      have hbuf := flush_buffer_none_buffer now
        { s with buffer := s.buffer ++ [item], flushCalls := s.flushCalls + 1 }
      have hlt : (flush_buffer now none
          { s with buffer := s.buffer ++ [item], flushCalls := s.flushCalls + 1 }).buffer.length
          < (flush_buffer now none
          { s with buffer := s.buffer ++ [item], flushCalls := s.flushCalls + 1 }).buffer_size := by
        rw [hbuf, hfl.1]
        simpa using Nat.lt_of_le_of_lt (Nat.zero_le _) h
      obtain ⟨ih1, ih2, ih3⟩ := ingest_count now rest _ hlt
      rw [hbuf] at ih1 ih2
      rw [hfl.1] at ih1 ih2 ih3
      rw [hfl.2.2] at ih2
      refine ⟨?_, ?_, ih3⟩
      · rw [ih1]
        simp only [List.length_nil, Nat.zero_add, List.length_cons]
        have harith : s.buffer.length + (rest.length + 1) = rest.length + s.buffer_size := by
          omega
        rw [harith, Nat.add_mod_right]
      · rw [ih2]
        simp only [List.length_nil, Nat.zero_add, List.length_cons]
        have harith : s.buffer.length + (rest.length + 1) = rest.length + s.buffer_size := by
          omega
        rw [harith, Nat.add_div_right _ (Nat.lt_of_le_of_lt (Nat.zero_le _) h)]
        omega
    · have hlt2 : s.buffer.length + 1 < s.buffer_size := Nat.lt_of_not_le hfull
      rw [step, buffer_data_not_full now none s item hlt2]
      have hlt3 : ({ s with buffer := s.buffer ++ [item] } : AppState).buffer.length
          < ({ s with buffer := s.buffer ++ [item] } : AppState).buffer_size := by
        simpa using hlt2
      obtain ⟨ih1, ih2, ih3⟩ := ingest_count now rest _ hlt3
      simp only [List.length_append, List.length_cons, List.length_nil] at ih1 ih2
      refine ⟨?_, ?_, ih3⟩
      · rw [ih1]
        have harith : s.buffer.length + 1 + 0 + rest.length
            = s.buffer.length + (rest.length + 1) := by omega
        rw [harith]
        simp only [List.length_cons]
      · rw [ih2]
        have harith : s.buffer.length + 1 + 0 + rest.length
            = s.buffer.length + (rest.length + 1) := by omega
        rw [harith]
        simp only [List.length_cons]

/-! ### Schema lemmas -/

theorem createTable_mem (name : String) (db : DbSchema) :
    name ∈ (createTableIfNotExists name db).tables := by
  unfold createTableIfNotExists
  by_cases h : name ∈ db.tables <;> simp [h]

theorem createTable_of_mem (name : String) (db : DbSchema) (h : name ∈ db.tables) :
    createTableIfNotExists name db = db := by
  unfold createTableIfNotExists
  simp [h]

theorem createTable_mono (name m : String) (db : DbSchema) (h : m ∈ db.tables) :
    m ∈ (createTableIfNotExists name db).tables := by
  unfold createTableIfNotExists
  by_cases hn : name ∈ db.tables <;> simp [hn, h]

theorem createTable_indexes (name : String) (db : DbSchema) :
    (createTableIfNotExists name db).indexes = db.indexes := by
  unfold createTableIfNotExists
  by_cases hn : name ∈ db.tables <;> simp [hn]

theorem createTable_rows (name : String) (db : DbSchema) :
    (createTableIfNotExists name db).rows = db.rows := by
  unfold createTableIfNotExists
  by_cases hn : name ∈ db.tables <;> simp [hn]

theorem createTable_nodup (name : String) (db : DbSchema) (h : db.tables.Nodup) :
    (createTableIfNotExists name db).tables.Nodup := by
  unfold createTableIfNotExists
  by_cases hn : name ∈ db.tables
  · simpa [hn] using h
  · simp [hn, List.nodup_append, h, hn]

theorem createIndex_mem (name : String) (db : DbSchema) :
    name ∈ (createIndexIfNotExists name db).indexes := by
  unfold createIndexIfNotExists
  by_cases h : name ∈ db.indexes <;> simp [h]

theorem createIndex_of_mem (name : String) (db : DbSchema) (h : name ∈ db.indexes) :
    createIndexIfNotExists name db = db := by
  unfold createIndexIfNotExists
  simp [h]

theorem createIndex_tables (name : String) (db : DbSchema) :
    (createIndexIfNotExists name db).tables = db.tables := by
  unfold createIndexIfNotExists
  by_cases hn : name ∈ db.indexes <;> simp [hn]

theorem createIndex_rows (name : String) (db : DbSchema) :
    (createIndexIfNotExists name db).rows = db.rows := by
  unfold createIndexIfNotExists
  by_cases hn : name ∈ db.indexes <;> simp [hn]

theorem createIndex_nodup (name : String) (db : DbSchema) (h : db.indexes.Nodup) :
    (createIndexIfNotExists name db).indexes.Nodup := by
  unfold createIndexIfNotExists
  by_cases hn : name ∈ db.indexes
  · simpa [hn] using h
  · simp [hn, List.nodup_append, h]

/-! ### Viewer helper lemmas -/

theorem mem_sortAsc {rows : List DVRow} {r : DVRow}
    (h : r ∈ List.insertionSort tsAsc rows) : r ∈ rows :=
  (List.perm_insertionSort tsAsc rows).mem_iff.mp h

theorem mem_sortDesc {rows : List DVRow} {r : DVRow}
    (h : r ∈ List.insertionSort tsDesc rows) : r ∈ rows :=
  (List.perm_insertionSort tsDesc rows).mem_iff.mp h

theorem mem_recentSelect {rows : List DVRow} {limit : Nat} {r : DVRow}
    (h : r ∈ recentSelect rows limit) : r ∈ rows :=
  mem_sortDesc ((List.take_sublist _ _).subset h)

theorem mapRows_ok {α : Type} (f : DVRow → Except String α) :
    ∀ l : List DVRow, (∀ r ∈ l, ∃ y, f r = .ok y) → ∃ out, mapRows f l = .ok out
  | [], _ => ⟨[], rfl⟩
  | r :: rest, h => by
    obtain ⟨y, hy⟩ := h r (List.mem_cons_self r rest)
    obtain ⟨out, hout⟩ := mapRows_ok f rest (fun x hx => h x (List.mem_cons_of_mem r hx))
    refine ⟨y :: out, ?_⟩
    simp only [mapRows, hy, hout]

theorem recentRecordOfRow_ok (r : DVRow) (fields : Dict)
    (hdata : r.data = .wellFormed (.obj fields))
    (hch : dictGet fields "data" = none ∨ ∃ xs, dictGet fields "data" = some (.arr xs)) :
    ∃ y, recentRecordOfRow r = .ok y := by
  rcases hch with h | ⟨xs, h⟩
  · refine ⟨{ timestamp := r.timestamp, user_name := r.user_name, channels := 0,
              deviceId := dictGetD fields "deviceId" (.str "unknown") }, ?_⟩
    unfold recentRecordOfRow
    rw [hdata]
    simp only [loads, pyGetD, dictGetD, h]
    rfl
  · refine ⟨{ timestamp := r.timestamp, user_name := r.user_name, channels := xs.length,
              deviceId := dictGetD fields "deviceId" (.str "unknown") }, ?_⟩
    unfold recentRecordOfRow
    rw [hdata]
    simp only [loads, pyGetD, dictGetD, h]
    rfl

theorem csvRecordOfRow_ok (r : DVRow) (fields : Dict)
    (hdata : r.data = .wellFormed (.obj fields)) :
    csvRecordOfRow r
      = .ok { id := r.id, timestamp := r.timestamp, user_name := r.user_name,
              deviceId := dictGetD fields "deviceId" (.str "unknown"), data_json := r.data } := by
  unfold csvRecordOfRow
  rw [hdata]
  rfl

/-- Ingesting one record into an empty buffer and then flushing (by the size
trigger inside `buffer_data` or by the later explicit flush, whichever fires)
appends exactly one row, whose timestamp is the value of the timestamp field
of the item when that field is present. -/
theorem single_ingest_flush (s : AppState) (item : Dict) (v : Json) (n1 n2 : String)
    (hb : s.buffer = []) (hp : s.conn.pending = [])
    (hts : dictGet item "timestamp" = some v) :
    (flush_buffer n2 none (buffer_data n1 none s item)).conn.committed
        = s.conn.committed ++
          [{ id := s.conn.nextId, timestamp := v, data := dumps (.obj item),
             user_name := s.user_name }]
      ∧ (flush_buffer n2 none (buffer_data n1 none s item)).buffer = [] := by
  refine ⟨?_, flush_buffer_none_buffer n2 _⟩
  have hrow1 : rowsFrom n1 s.user_name s.conn.nextId [item]
      = [{ id := s.conn.nextId, timestamp := v, data := dumps (.obj item),
           user_name := s.user_name }] := by
    simp [rowsFrom, dictGetD, hts]
  have hrow2 : rowsFrom n2 s.user_name s.conn.nextId [item]
      = [{ id := s.conn.nextId, timestamp := v, data := dumps (.obj item),
           user_name := s.user_name }] := by
    simp [rowsFrom, dictGetD, hts]
  by_cases hfull : s.buffer.length + 1 ≥ s.buffer_size
  · rw [buffer_data_full n1 none s item hfull]
    have hne : ({ s with buffer := s.buffer ++ [item], flushCalls := s.flushCalls + 1 }
        : AppState).buffer ≠ [] := by simp
    rw [flush_buffer_success n1 _ hne]
    have hemp : (({ s with buffer := s.buffer ++ [item], flushCalls := s.flushCalls + 1 }
        : AppState).buffer.isEmpty) = false := by simp
    rw [flush_buffer_empty n2 none _ (by simp)]
    simp only [hb, List.nil_append]
    rw [hrow1]
    simp [hp]
  · rw [buffer_data_not_full n1 none s item (Nat.lt_of_not_le hfull)]
    have hne : ({ s with buffer := s.buffer ++ [item] } : AppState).buffer ≠ [] := by simp
    rw [flush_buffer_success n2 _ hne]
    simp only [hb, List.nil_append]
    rw [hrow2]
    simp [hp]

/-- Every row the insert loop produces from items that all carry a timestamp
field has its timestamp column equal to the timestamp field of its own
serialized payload. -/
theorem rowsFrom_timestamp (now user : String) :
    ∀ (items : List Dict) (i : Nat),
      (∀ item ∈ items, ∃ v, dictGet item "timestamp" = some v) →
      ∀ r ∈ rowsFrom now user i items,
        ∃ fields, r.data = dumps (.obj fields) ∧ dictGet fields "timestamp" = some r.timestamp
  | [], _, _, r, hr => by simp [rowsFrom] at hr
  | item :: rest, i, h, r, hr => by
    rw [rowsFrom] at hr
    rcases List.mem_cons.mp hr with heq | hmem
    · subst heq
      obtain ⟨v, hv⟩ := h item (List.mem_cons_self item rest)
      exact ⟨item, rfl, by simp [dictGetD, hv]⟩
    · exact rowsFrom_timestamp now user rest (i + 1)
        (fun x hx => h x (List.mem_cons_of_mem item hx)) r hmem

/-! ### Claim theorems -/

/-- C1 (amended): when the persistence failure strikes at the call boundary
(before any INSERT of the batch executes), the buffer and the connection are
left exactly as they were; a later successful flush then persists, exactly
once each and in order, every record that was buffered at failure time plus
any appended afterward, and clears the buffer.  A flush clears the buffer iff
it succeeds.  (As stated, with the failure allowed to strike after some
INSERTs executed, the claim is false: see the counterexample, where the
missing rollback duplicates rows.) -/
theorem c1_flush_failure_retry (s : AppState) (more : List Dict) (nf ns : String)
    (hp : s.conn.pending = []) (hb : s.buffer ≠ []) :
    flush_buffer nf (some 0) s = s
      ∧ (flush_buffer ns none { s with buffer := s.buffer ++ more }).conn.committed
          = s.conn.committed ++ rowsFrom ns s.user_name s.conn.nextId (s.buffer ++ more)
      ∧ (flush_buffer ns none { s with buffer := s.buffer ++ more }).buffer = []
      ∧ (∀ t : String, (flush_buffer t none s).buffer = [])
      ∧ (∀ (t : String) (k : Nat), (flush_buffer t (some k) s).buffer = s.buffer) := by
  have hne : ({ s with buffer := s.buffer ++ more } : AppState).buffer ≠ [] := by
    intro hcon
    exact hb (List.append_eq_nil.mp hcon).1
  refine ⟨flush_buffer_fail_boundary nf s, ?_, flush_buffer_none_buffer ns _,
    fun t => flush_buffer_none_buffer t s, fun t k => flush_buffer_fail_buffer t k s⟩
  rw [flush_buffer_success ns _ hne]
  simp [hp]

theorem c1_flush_failure_retry_witness :
    (flush_buffer "t2" none
        { buffer := [[("a", Json.num 1)]] ++ [], buffer_size := 10, user_name := "u",
          conn := { committed := [], pending := [], nextId := 1 },
          flushCalls := 0 }).conn.committed
      = [] ++ rowsFrom "t2" "u" 1 ([[("a", Json.num 1)]] ++ []) :=
  (c1_flush_failure_retry
    { buffer := [[("a", Json.num 1)]], buffer_size := 10, user_name := "u",
      conn := { committed := [], pending := [], nextId := 1 }, flushCalls := 0 }
    [] "t1" "t2" rfl (by simp)).2.1

/-- C1 counterexample: the buffer holds two records; the INSERT of the second
one raises (the first already executed and, with no rollback in the `except`
branch, stays pending on the connection); the next flush succeeds.  The first
record is then committed twice: the store ends with three rows for two
records, two of them identical in timestamp, payload and owner — refuting
"no duplicate rows in the store". -/
theorem c1_counterexample :
    ((flush_buffer "ts" none
        (flush_buffer "tf" (some 1)
          { buffer := [[("timestamp", Json.str "2024-01-01T10:00:00")],
                       [("timestamp", Json.str "2024-01-01T10:30:00")]],
            buffer_size := 10, user_name := "u",
            conn := { committed := [], pending := [], nextId := 1 },
            flushCalls := 0 })).conn.committed.map
        fun r => (r.timestamp, r.data, r.user_name))
      = [(Json.str "2024-01-01T10:00:00",
          dumps (Json.obj [("timestamp", Json.str "2024-01-01T10:00:00")]), "u"),
         (Json.str "2024-01-01T10:00:00",
          dumps (Json.obj [("timestamp", Json.str "2024-01-01T10:00:00")]), "u"),
         (Json.str "2024-01-01T10:30:00",
          dumps (Json.obj [("timestamp", Json.str "2024-01-01T10:30:00")]), "u")] := rfl

/-- C2 (amended): a payload with no timestamp field, ingested through the
callback and flushed, produces exactly one stored row whose data column
decodes to the payload plus the injected timestamp field, and whose timestamp
column is the injected stamp; a payload whose existing timestamp value is
truthy keeps that value unchanged in both the timestamp column and the
serialized payload.  (As stated — for every record that merely has a
timestamp field — the claim is false: a falsy value such as the empty string
is re-stamped; see the counterexample.) -/
theorem c2_roundtrip (s : AppState) (P : Dict) (ns n1 n2 : String)
    (hb : s.buffer = []) (hp : s.conn.pending = []) :
    (dictGet P "timestamp" = none →
      (flush_buffer n2 none
          (buffer_data n1 none s (brainwave_callback_stamp ns P))).conn.committed
          = s.conn.committed ++
            [{ id := s.conn.nextId, timestamp := .str ns,
               data := dumps (.obj (dictSet P "timestamp" (.str ns))),
               user_name := s.user_name }]
        ∧ (flush_buffer n2 none
            (buffer_data n1 none s (brainwave_callback_stamp ns P))).buffer = []
        ∧ loads (dumps (.obj (dictSet P "timestamp" (.str ns))))
            = .ok (.obj (dictSet P "timestamp" (.str ns))))
    ∧ (∀ v : Json, dictGet P "timestamp" = some v → v.truthy = true →
        (flush_buffer n2 none
            (buffer_data n1 none s (brainwave_callback_stamp ns P))).conn.committed
          = s.conn.committed ++
            [{ id := s.conn.nextId, timestamp := v, data := dumps (.obj P),
               user_name := s.user_name }]) := by
  constructor
  · intro h
    rw [stamp_of_missing ns P h]
    obtain ⟨h1, h2⟩ := single_ingest_flush s (dictSet P "timestamp" (.str ns)) (.str ns)
      n1 n2 hb hp (dictGet_dictSet _ _ P)
    exact ⟨h1, h2, rfl⟩
  · intro v hv htr
    rw [stamp_of_truthy ns P v hv htr]
    exact (single_ingest_flush s P v n1 n2 hb hp hv).1

theorem c2_roundtrip_witness :
    (flush_buffer "t2" none
        (buffer_data "t1" none
          { buffer := [], buffer_size := 10, user_name := "u",
            conn := { committed := [], pending := [], nextId := 1 }, flushCalls := 0 }
          (brainwave_callback_stamp "2024-05-05T00:00:00" []))).conn.committed
      = [{ id := 1, timestamp := .str "2024-05-05T00:00:00",
           data := dumps (.obj [("timestamp", Json.str "2024-05-05T00:00:00")]),
           user_name := "u" }] :=
  ((c2_roundtrip
    { buffer := [], buffer_size := 10, user_name := "u",
      conn := { committed := [], pending := [], nextId := 1 }, flushCalls := 0 }
    [] "2024-05-05T00:00:00" "t1" "t2" rfl rfl).1 rfl).1

/-- C2 counterexample: the ingested record has a timestamp field whose value
is the empty string (falsy).  The claim says an existing timestamp value is
preserved unchanged, but the callback re-stamps it: the stored timestamp
column holds the wall-clock stamp, not the original empty string. -/
theorem c2_counterexample :
    ((flush_buffer "t2" none
        (buffer_data "t1" none
          { buffer := [], buffer_size := 10, user_name := "u",
            conn := { committed := [], pending := [], nextId := 1 }, flushCalls := 0 }
          (brainwave_callback_stamp "2024-05-05T00:00:00"
            [("timestamp", Json.str "")]))).conn.committed.map fun r => r.timestamp)
      = [Json.str "2024-05-05T00:00:00"]
    ∧ "2024-05-05T00:00:00" ≠ "" := ⟨rfl, by decide⟩

/-- C3 (amended): the standalone setup script creates the primary table, its
timestamp index and the aggregate table if absent; the app's own database
initialization creates only the primary table and its index (not the
aggregate table — see the counterexample).  Both are idempotent: a second
call against the same store changes nothing, creates no duplicate tables or
indexes, and loses no data. -/
theorem c3_initialization_idempotent (db : DbSchema)
    (ht : db.tables.Nodup) (hi : db.indexes.Nodup) :
    init_database (init_database db) = init_database db
      ∧ setup_database (setup_database db) = setup_database db
      ∧ (init_database db).rows = db.rows
      ∧ (setup_database db).rows = db.rows
      ∧ "brainwaves_raw" ∈ (init_database db).tables
      ∧ "idx_timestamp" ∈ (init_database db).indexes
      ∧ "brainwaves_raw" ∈ (setup_database db).tables
      ∧ "idx_timestamp" ∈ (setup_database db).indexes
      ∧ "aggregated_data" ∈ (setup_database db).tables
      ∧ (init_database db).tables.Nodup
      ∧ (init_database db).indexes.Nodup
      ∧ (setup_database db).tables.Nodup
      ∧ (setup_database db).indexes.Nodup := by
  have hit : "brainwaves_raw" ∈ (init_database db).tables := by
    unfold init_database
    rw [createIndex_tables]
    exact createTable_mem _ _
  have hii : "idx_timestamp" ∈ (init_database db).indexes := by
    unfold init_database
    exact createIndex_mem _ _
  have hst : "brainwaves_raw" ∈ (setup_database db).tables := by
    unfold setup_database
    apply createTable_mono
    rw [createIndex_tables]
    exact createTable_mem _ _
  have hsa : "aggregated_data" ∈ (setup_database db).tables := by
    unfold setup_database
    exact createTable_mem _ _
  have hsi : "idx_timestamp" ∈ (setup_database db).indexes := by
    unfold setup_database
    rw [createTable_indexes]
    exact createIndex_mem _ _
  refine ⟨?_, ?_, ?_, ?_, hit, hii, hst, hsi, hsa, ?_, ?_, ?_, ?_⟩
  · show createIndexIfNotExists "idx_timestamp"
        (createTableIfNotExists "brainwaves_raw" (init_database db)) = init_database db
    rw [createTable_of_mem _ _ hit, createIndex_of_mem _ _ hii]
  · show createTableIfNotExists "aggregated_data"
        (createIndexIfNotExists "idx_timestamp"
          (createTableIfNotExists "brainwaves_raw" (setup_database db))) = setup_database db
    rw [createTable_of_mem _ _ hst, createIndex_of_mem _ _ hsi,
      createTable_of_mem _ _ hsa]
  · show (createIndexIfNotExists "idx_timestamp"
        (createTableIfNotExists "brainwaves_raw" db)).rows = db.rows
    rw [createIndex_rows, createTable_rows]
  · show (createTableIfNotExists "aggregated_data"
        (createIndexIfNotExists "idx_timestamp"
          (createTableIfNotExists "brainwaves_raw" db))).rows = db.rows
    rw [createTable_rows, createIndex_rows, createTable_rows]
  · show (createIndexIfNotExists "idx_timestamp"
        (createTableIfNotExists "brainwaves_raw" db)).tables.Nodup
    rw [createIndex_tables]
    exact createTable_nodup _ _ ht
  · show (createIndexIfNotExists "idx_timestamp"
        (createTableIfNotExists "brainwaves_raw" db)).indexes.Nodup
    apply createIndex_nodup
    rw [createTable_indexes]
    exact hi
  · show (createTableIfNotExists "aggregated_data"
        (createIndexIfNotExists "idx_timestamp"
          (createTableIfNotExists "brainwaves_raw" db))).tables.Nodup
    apply createTable_nodup
    rw [createIndex_tables]
    exact createTable_nodup _ _ ht
  · show (createTableIfNotExists "aggregated_data"
        (createIndexIfNotExists "idx_timestamp"
          (createTableIfNotExists "brainwaves_raw" db))).indexes.Nodup
    rw [createTable_indexes]
    apply createIndex_nodup
    rw [createTable_indexes]
    exact hi

theorem c3_initialization_idempotent_witness :
    setup_database (setup_database { tables := [], indexes := [], rows := [] })
      = setup_database { tables := [], indexes := [], rows := [] } :=
  (c3_initialization_idempotent { tables := [], indexes := [], rows := [] }
    List.nodup_nil List.nodup_nil).2.1

/-- C3 counterexample: the app's store initialization (`init_database` in
app.py, one of the two routines the claim covers) does not create the
aggregate table: starting from an empty schema it creates only
`brainwaves_raw` and its index, and `aggregated_data` is absent. -/
theorem c3_counterexample :
    (init_database { tables := [], indexes := [], rows := [] }).tables = ["brainwaves_raw"]
      ∧ "aggregated_data" ∉ (init_database { tables := [], indexes := [], rows := [] }).tables :=
  ⟨rfl, by decide⟩

/-- C4 (amended): provided every triggered flush succeeds, the buffer length
after each ingest returns stays strictly below the configured maximum size
(hence never exceeds it), and the buffer is cleared atomically on every
successful flush.  (As stated — over sequences that include failing flushes —
the claim is false: a failed flush keeps the records, so the next ingest
pushes the buffer past the configured maximum; see the counterexample.) -/
theorem c4_buffer_bounded (now : String) (s : AppState) (items pre suffix : List Dict)
    (hlt : s.buffer.length < s.buffer_size) (_hsplit : items = pre ++ suffix) :
    (ingestList now s pre).buffer.length < s.buffer_size
      ∧ (∀ (t : String) (s2 : AppState), (flush_buffer t none s2).buffer = []) := by
  obtain ⟨h1, _, _⟩ := ingest_count now pre s hlt
  have hpos : 0 < s.buffer_size := Nat.lt_of_le_of_lt (Nat.zero_le _) hlt
  refine ⟨?_, fun t s2 => flush_buffer_none_buffer t s2⟩
  rw [h1]
  exact Nat.mod_lt _ hpos

theorem c4_buffer_bounded_witness :
    (ingestList "t"
        { buffer := [], buffer_size := 2, user_name := "u",
          conn := { committed := [], pending := [], nextId := 1 }, flushCalls := 0 }
        [[], [], []]).buffer.length < 2 :=
  (c4_buffer_bounded "t"
    { buffer := [], buffer_size := 2, user_name := "u",
      conn := { committed := [], pending := [], nextId := 1 }, flushCalls := 0 }
    ([[], [], []] ++ [[]]) [[], [], []] [[]] (by decide) rfl).1

/-- C4 counterexample: with configured maximum size 1 and the persistence
call failing on each triggered flush, the second ingest returns with 2
records in the buffer — the buffer length exceeds the configured maximum,
refuting the bound for sequences that include failing flushes. -/
theorem c4_counterexample :
    (ingestListFail "t"
        { buffer := [], buffer_size := 1, user_name := "u",
          conn := { committed := [], pending := [], nextId := 1 }, flushCalls := 0 }
        [[], []]).buffer_size
      < (ingestListFail "t"
        { buffer := [], buffer_size := 1, user_name := "u",
          conn := { committed := [], pending := [], nextId := 1 }, flushCalls := 0 }
        [[], []]).buffer.length := by decide

/-- C6: ingesting N records one by one with buffer threshold T (T positive),
starting from an empty buffer and with no timer flush in between, completes
exactly floor(N / T) size-triggered flush calls and leaves exactly N mod T
records pending in the buffer; and any ingest that brings the buffer length
to the threshold runs a synchronous flush before returning. -/
theorem c6_size_trigger_counts (now : String) (items : List Dict) (s : AppState)
    (hT : 0 < s.buffer_size) (hb : s.buffer = []) :
    (ingestList now s items).flushCalls = s.flushCalls + items.length / s.buffer_size
      ∧ (ingestList now s items).buffer.length = items.length % s.buffer_size
      ∧ (∀ (s2 : AppState) (item : Dict) (failAt : Option Nat),
          s2.buffer.length + 1 ≥ s2.buffer_size →
          buffer_data now failAt s2 item
            = flush_buffer now failAt
                { s2 with buffer := s2.buffer ++ [item],
                          flushCalls := s2.flushCalls + 1 }) := by
  have hlt : s.buffer.length < s.buffer_size := by rw [hb]; simpa using hT
  obtain ⟨h1, h2, _⟩ := ingest_count now items s hlt
  rw [hb] at h1 h2
  simp only [List.length_nil, Nat.zero_add] at h1 h2
  exact ⟨h2, h1, fun s2 item failAt h => buffer_data_full now failAt s2 item h⟩

theorem c6_size_trigger_counts_witness :
    (ingestList "t"
        { buffer := [], buffer_size := 2, user_name := "u",
          conn := { committed := [], pending := [], nextId := 1 }, flushCalls := 0 }
        [[], [], [], [], []]).flushCalls = 0 + 5 / 2 :=
  (c6_size_trigger_counts "t" [[], [], [], [], []]
    { buffer := [], buffer_size := 2, user_name := "u",
      conn := { committed := [], pending := [], nextId := 1 }, flushCalls := 0 }
    (by decide) rfl).1

/-- C9: every row produced by flushing records that passed through the
ingestion callback has its timestamp column equal to the timestamp field
inside the decoded payload of that same row: the callback guarantees the
field exists, and the flush loop reads the column value from that very
field. -/
theorem c9_timestamp_consistency (s : AppState) (nf : String)
    (pairs : List (String × Dict)) (hp : s.conn.pending = []) :
    (flush_buffer nf none
        { s with buffer := pairs.map fun p => brainwave_callback_stamp p.1 p.2 }).conn.committed
      = s.conn.committed ++
          rowsFrom nf s.user_name s.conn.nextId
            (pairs.map fun p => brainwave_callback_stamp p.1 p.2)
      ∧ ∀ r ∈ rowsFrom nf s.user_name s.conn.nextId
            (pairs.map fun p => brainwave_callback_stamp p.1 p.2),
          ∃ fields, r.data = dumps (.obj fields)
            ∧ dictGet fields "timestamp" = some r.timestamp := by
  constructor
  · cases hps : pairs with
    | nil =>
      rw [flush_buffer_empty nf none _ (by simp)]
      simp [rowsFrom]
    | cons p rest =>
      have hne : ({ s with
          buffer := (p :: rest).map fun q => brainwave_callback_stamp q.1 q.2 }
          : AppState).buffer ≠ [] := by simp
      rw [flush_buffer_success nf _ hne]
      simp [hp]
  · apply rowsFrom_timestamp
    intro item hitem
    obtain ⟨p, _, hpe⟩ := List.mem_map.mp hitem
    rw [← hpe]
    exact stamp_timestamp p.1 p.2

theorem c9_timestamp_consistency_witness :
    (flush_buffer "tf" none
        { buffer := [("2024-01-01T00:00:00", ([] : Dict))].map
            (fun p => brainwave_callback_stamp p.1 p.2),
          buffer_size := 10, user_name := "u",
          conn := { committed := [], pending := [], nextId := 1 },
          flushCalls := 0 }).conn.committed
      = [] ++ rowsFrom "tf" "u" 1
          ([("2024-01-01T00:00:00", ([] : Dict))].map
            (fun p => brainwave_callback_stamp p.1 p.2)) :=
  (c9_timestamp_consistency
    { buffer := [("2024-01-01T00:00:00", ([] : Dict))].map
        (fun p => brainwave_callback_stamp p.1 p.2),
      buffer_size := 10, user_name := "u",
      conn := { committed := [], pending := [], nextId := 1 }, flushCalls := 0 }
    "tf" [("2024-01-01T00:00:00", ([] : Dict))] rfl).1

/-- C10: calling the CSV export with a limit of 0 takes the unlimited branch
(Python `if limit:` is false for 0): it exports exactly what a limit of None
exports, namely every row of the store; only a non-zero limit restricts the
export to the most recent rows. -/
theorem c10_export_limit_zero (rows : List DVRow) :
    export_to_csv rows (some 0) = export_to_csv rows none
      ∧ List.Perm (exportSelect rows (some 0)) rows
      ∧ (∀ l : Nat, l ≠ 0 → exportSelect rows (some l)
          = (List.insertionSort tsDesc rows).take l) := by
  have h0 : exportSelect rows (some 0) = List.insertionSort tsDesc rows := by
    simp [exportSelect]
  refine ⟨?_, ?_, ?_⟩
  · unfold export_to_csv
    rw [h0]
    rfl
  · rw [h0]
    exact List.perm_insertionSort _ _
  · intro l hl
    simp [exportSelect, recentSelect, hl]

theorem c10_export_limit_zero_witness :
    exportSelect [{ id := 1, timestamp := "a", data := dumps (.obj []), user_name := "u" }]
        (some 1)
      = (List.insertionSort tsDesc
          [{ id := 1, timestamp := "a", data := dumps (.obj []), user_name := "u" }]).take 1 :=
  (c10_export_limit_zero
    [{ id := 1, timestamp := "a", data := dumps (.obj []), user_name := "u" }]).2.2
    1 (by decide)

/-- C5 (amended): read-side operations degrade missing fields to defaults —
a decoded payload object without a deviceId yields "unknown", and a missing
data field yields a channel count of 0 — and complete over any store whose
data columns hold well-formed JSON objects.  (As stated the claim is false:
a row whose data column is malformed JSON makes `json.loads` raise, aborting
the whole read operation — see the counterexample.) -/
theorem c5_read_degrades (rows : List DVRow) (limit : Nat)
    (h : ∀ r ∈ rows, ∃ fields, r.data = .wellFormed (.obj fields)
          ∧ (dictGet fields "data" = none ∨ ∃ xs, dictGet fields "data" = some (.arr xs))) :
    (∃ out, get_recent_data rows limit = .ok out)
      ∧ (∃ out, export_to_csv rows none = .ok out)
      ∧ (∀ (r : DVRow) (fields : Dict), r.data = .wellFormed (.obj fields) →
          dictGet fields "deviceId" = none →
            csvRecordOfRow r
              = .ok { id := r.id, timestamp := r.timestamp, user_name := r.user_name,
                      deviceId := .str "unknown", data_json := r.data })
      ∧ (∀ (r : DVRow) (fields : Dict), r.data = .wellFormed (.obj fields) →
          dictGet fields "data" = none → dictGet fields "deviceId" = none →
            recentRecordOfRow r
              = .ok { timestamp := r.timestamp, user_name := r.user_name,
                      channels := 0, deviceId := .str "unknown" }) := by
  refine ⟨?_, ?_, ?_, ?_⟩
  · apply mapRows_ok
    intro r hr
    obtain ⟨fields, hdata, hch⟩ := h r (mem_recentSelect hr)
    exact recentRecordOfRow_ok r fields hdata hch
  · apply mapRows_ok
    intro r hr
    obtain ⟨fields, hdata, _⟩ := h r (mem_sortDesc hr)
    exact ⟨_, csvRecordOfRow_ok r fields hdata⟩
  · intro r fields hdata hdev
    rw [csvRecordOfRow_ok r fields hdata]
    simp [dictGetD, hdev]
  · intro r fields hdata hdat hdev
    unfold recentRecordOfRow
    rw [hdata]
    simp only [loads, pyGetD, dictGetD, hdat, hdev]
    rfl

theorem c5_read_degrades_witness :
    ∃ out, get_recent_data
        [{ id := 1, timestamp := "t", data := .wellFormed (.obj []), user_name := "u" }] 10
      = .ok out :=
  (c5_read_degrades
    [{ id := 1, timestamp := "t", data := .wellFormed (.obj []), user_name := "u" }] 10
    (by
      intro r hr
      rw [List.mem_singleton] at hr
      subst hr
      exact ⟨[], rfl, Or.inl rfl⟩)).1

/-- C5 counterexample: a store with one row whose data column is malformed
JSON.  The claim says the read side degrades and completes, but both the
recent-record summary and the CSV export raise the JSON decode error and
abort. -/
theorem c5_counterexample :
    get_recent_data
        [{ id := 1, timestamp := "2024-01-01T00:00:00",
           data := JsonText.malformed "not json", user_name := "u" }] 10
      = .error "json.JSONDecodeError"
    ∧ export_to_csv
        [{ id := 1, timestamp := "2024-01-01T00:00:00",
           data := JsonText.malformed "not json", user_name := "u" }] none
      = .error "json.JSONDecodeError" := ⟨rfl, rfl⟩

set_option maxHeartbeats 4000000 in
/-- C7: the hourly-count query filters rows to the inclusive range, groups
them by the first 13 characters of the timestamp string (a lexical prefix)
together with the owner, reports the exact per-group row count for a group
key that occurs, lists every occurring group key, orders output by hour
ascending; and on the three-record "alice" scenario it returns exactly the two
buckets (2024-01-01T10, 2) and (2024-01-01T11, 1), both attributed to
alice. -/
theorem c7_hourly_grouping (rows : List DVRow) (startT endT : String) :
    (∀ x ∈ hourlyCounts rows startT endT,
        x.2.1 = ((rows.filter (inRange startT endT)).filter
            (fun r => substr13 r.timestamp == x.1 && r.user_name == x.2.2)).length
          ∧ ∃ r ∈ rows.filter (inRange startT endT),
              substr13 r.timestamp = x.1 ∧ r.user_name = x.2.2)
      ∧ (∀ hu : String × String,
          (∃ r ∈ rows.filter (inRange startT endT), hourKey r = hu) →
          ∃ c, (hu.1, c, hu.2) ∈ hourlyCounts rows startT endT)
      ∧ List.Pairwise (fun a b : String × Nat × String => strLe a.1 b.1 = true)
          (hourlyCounts rows startT endT)
      ∧ hourlyCounts
          [{ id := 1, timestamp := "2024-01-01T10:00:00", data := dumps (.obj []),
             user_name := "alice" },
           { id := 2, timestamp := "2024-01-01T10:30:00", data := dumps (.obj []),
             user_name := "alice" },
           { id := 3, timestamp := "2024-01-01T11:15:00", data := dumps (.obj []),
             user_name := "alice" }]
          "2024-01-01T00:00:00" "2024-01-01T23:59:59"
        = [("2024-01-01T10", 2, "alice"), ("2024-01-01T11", 1, "alice")] := by
  haveI : IsTotal (String × String) hourLe := ⟨hourLe_total⟩
  haveI : IsTrans (String × String) hourLe := ⟨hourLe_trans⟩
  refine ⟨?_, ?_, ?_, by decide⟩
  · intro x hx
    unfold hourlyCounts at hx
    obtain ⟨k, hk, hfx⟩ := List.mem_map.mp hx
    have hkmap : k ∈ (rows.filter (inRange startT endT)).map hourKey :=
      List.mem_dedup.mp ((List.perm_insertionSort hourLe _).mem_iff.mp hk)
    obtain ⟨r, hr, hrk⟩ := List.mem_map.mp hkmap
    have h1 : substr13 r.timestamp = k.1 := congrArg Prod.fst hrk
    have h2 : r.user_name = k.2 := congrArg Prod.snd hrk
    rw [← hfx]
    exact ⟨rfl, ⟨r, hr, h1, h2⟩⟩
  · intro hu hex
    obtain ⟨r, hr, hrk⟩ := hex
    have h1 : hu ∈ (rows.filter (inRange startT endT)).map hourKey :=
      List.mem_map.mpr ⟨r, hr, hrk⟩
    have h2 : hu ∈ List.insertionSort hourLe
        (((rows.filter (inRange startT endT)).map hourKey).dedup) :=
      (List.perm_insertionSort hourLe _).mem_iff.mpr (List.mem_dedup.mpr h1)
    refine ⟨((rows.filter (inRange startT endT)).filter
      (fun r2 => substr13 r2.timestamp == hu.1 && r2.user_name == hu.2)).length, ?_⟩
    unfold hourlyCounts
    exact List.mem_map.mpr ⟨hu, h2, rfl⟩
  · unfold hourlyCounts
    exact List.Pairwise.map _ (fun a b hab => hab)
      (List.sorted_insertionSort hourLe _)

theorem c7_hourly_grouping_witness :
    ∃ c, ("2024-01-01T10", c, "alice") ∈ hourlyCounts
        [{ id := 1, timestamp := "2024-01-01T10:00:00", data := dumps (.obj []),
           user_name := "alice" },
         { id := 2, timestamp := "2024-01-01T10:30:00", data := dumps (.obj []),
           user_name := "alice" },
         { id := 3, timestamp := "2024-01-01T11:15:00", data := dumps (.obj []),
           user_name := "alice" }]
        "2024-01-01T00:00:00" "2024-01-01T23:59:59" :=
  (c7_hourly_grouping
    [{ id := 1, timestamp := "2024-01-01T10:00:00", data := dumps (.obj []),
       user_name := "alice" },
     { id := 2, timestamp := "2024-01-01T10:30:00", data := dumps (.obj []),
       user_name := "alice" },
     { id := 3, timestamp := "2024-01-01T11:15:00", data := dumps (.obj []),
       user_name := "alice" }]
    "2024-01-01T00:00:00" "2024-01-01T23:59:59").2.1
    ("2024-01-01T10", "alice")
    ⟨{ id := 1, timestamp := "2024-01-01T10:00:00", data := dumps (.obj []),
       user_name := "alice" },
     List.mem_filter.mpr ⟨List.mem_cons_self _ _, by decide⟩, by decide⟩

/-- C8: the time-range query returns exactly the rows whose timestamp is
lexically within the inclusive bounds (a permutation of the filtered store,
each returned row inside the bounds), ordered ascending by timestamp, and
projects the selected columns; the recent-record query returns at most
`limit` rows from the store, ordered descending by timestamp. -/
theorem c8_queries (rows : List DVRow) (startT endT : String) (limit : Nat)
    (_hl : 0 < limit) :
    List.Perm (timerangeSelect rows startT endT) (rows.filter (inRange startT endT))
      ∧ (∀ r ∈ timerangeSelect rows startT endT,
          strLe startT r.timestamp = true ∧ strLe r.timestamp endT = true)
      ∧ List.Pairwise tsAsc (timerangeSelect rows startT endT)
      ∧ get_data_by_timerange rows startT endT
          = (timerangeSelect rows startT endT).map (fun r => (r.timestamp, r.data))
      ∧ (recentSelect rows limit).length ≤ limit
      ∧ List.Pairwise tsDesc (recentSelect rows limit)
      ∧ (∀ r ∈ recentSelect rows limit, r ∈ rows) := by
  haveI : IsTotal DVRow tsAsc := ⟨tsAsc_total⟩
  haveI : IsTrans DVRow tsAsc := ⟨tsAsc_trans⟩
  haveI : IsTotal DVRow tsDesc := ⟨tsDesc_total⟩
  haveI : IsTrans DVRow tsDesc := ⟨tsDesc_trans⟩
  refine ⟨List.perm_insertionSort _ _, ?_, List.sorted_insertionSort _ _, rfl, ?_, ?_, ?_⟩
  · intro r hr
    have hrf : r ∈ rows.filter (inRange startT endT) :=
      (List.perm_insertionSort tsAsc _).mem_iff.mp hr
    have hc := (List.mem_filter.mp hrf).2
    simpa [inRange, Bool.and_eq_true] using hc
  · have hlen : (recentSelect rows limit).length
        = min limit (List.insertionSort tsDesc rows).length := by
      simp [recentSelect]
    rw [hlen]
    exact min_le_left _ _
  · exact List.Pairwise.sublist (List.take_sublist _ _)
      (List.sorted_insertionSort tsDesc rows)
  · intro r hr
    exact mem_recentSelect hr

theorem c8_queries_witness :
    (recentSelect
        [{ id := 1, timestamp := "b", data := dumps (.obj []), user_name := "u" },
         { id := 2, timestamp := "a", data := dumps (.obj []), user_name := "u" }]
        1).length ≤ 1 :=
  (c8_queries
    [{ id := 1, timestamp := "b", data := dumps (.obj []), user_name := "u" },
     { id := 2, timestamp := "a", data := dumps (.obj []), user_name := "u" }]
    "a" "b" 1 (by decide)).2.2.2.2.1
